import Mathlib

/-
Verification development for the Marina CSV to F1Tenth map converter
(parse_marina_to_f_map.py, plot_raceline.py).

Embedding conventions:
* A CSV field is modelled as Option Rat: some q when the Python float()
  conversion of the field text succeeds with value q, none when it raises
  ValueError (non-numeric text).  A missing column (IndexError) is an
  out-of-range list index.  Numeric values are modelled by exact rationals.
* math.sin and math.cos are modelled by abstract function parameters
  sinF cosF : Rat to Rat, so statements about trigonometric identities are
  phrased with explicit hypotheses such as sinF 0 = 0.
* File writes are modelled by the list of file names the run would write.
-/

namespace MarinaParser

/-- A raw CSV field after the split on the comma delimiter: some q when the
text converts to the number q, none when the conversion raises. -/
abbrev Field := Option ℚ

/-- Column mapping of parse_marina_to_f_map.py (self.column_mapping). -/
structure ColumnMapping where
  rl_x_m : Nat
  rl_y_m : Nat
  rl_vx_mps : Nat
  rl_psi_rad : Nat
  rl_ax_mps2 : Nat
  rl_n_m : Nat
  ref_rl_s_m : Nat
  ref_rl_x_m : Nat
  ref_rl_y_m : Nat
  ref_rl_psi_rad : Nat
  ref_rl_kappa_radpm : Nat
  ref_rl_d_right : Nat
  ref_rl_d_left : Nat
  ref_cl_s_m : Nat
  ref_cl_x_m : Nat
  ref_cl_y_m : Nat
  ref_cl_psi_rad : Nat
  ref_cl_kappa_radpm : Nat
  ref_cl_d_right : Nat
  ref_cl_d_left : Nat
  tb_left_x : Nat
  tb_left_y : Nat
  tb_right_x : Nat
  tb_right_y : Nat

/-- The concrete column indices from the source. -/
def column_mapping : ColumnMapping where
  rl_x_m := 0
  rl_y_m := 1
  rl_vx_mps := 3
  rl_psi_rad := 5
  rl_ax_mps2 := 6
  rl_n_m := 4
  ref_rl_s_m := 11
  ref_rl_x_m := 12
  ref_rl_y_m := 13
  ref_rl_psi_rad := 15
  ref_rl_kappa_radpm := 18
  ref_rl_d_right := 21
  ref_rl_d_left := 22
  ref_cl_s_m := 26
  ref_cl_x_m := 27
  ref_cl_y_m := 28
  ref_cl_psi_rad := 30
  ref_cl_kappa_radpm := 33
  ref_cl_d_right := 36
  ref_cl_d_left := 37
  tb_left_x := 41
  tb_left_y := 42
  tb_right_x := 44
  tb_right_y := 45

/-- Models float(values[i]): none on IndexError (index out of range) or on
ValueError (the field text is not numeric). -/
def floatField (values : List Field) (i : Nat) : Option ℚ :=
  (values.get? i).bind id

/-- A waypoint record, fields as in the Python dicts built by the three
create_*_waypoint methods. -/
structure Waypoint where
  id : Nat
  s_m : ℚ
  d_m : ℚ
  x_m : ℚ
  y_m : ℚ
  d_right : ℚ
  d_left : ℚ
  psi_rad : ℚ
  kappa_radpm : ℚ
  vx_mps : ℚ
  ax_mps2 : ℚ
deriving DecidableEq

/-- create_centerline_waypoint: reference centerline geometry, raw speed and
acceleration scaled by 0.7 and 0.5. -/
def create_centerline_waypoint (values : List Field) (waypoint_id : Nat) :
    Option Waypoint := do
  let x_m ← floatField values column_mapping.ref_cl_x_m
  let y_m ← floatField values column_mapping.ref_cl_y_m
  let s_m ← floatField values column_mapping.ref_cl_s_m
  let psi_rad ← floatField values column_mapping.ref_cl_psi_rad
  let kappa_radpm ← floatField values column_mapping.ref_cl_kappa_radpm
  let d_right ← floatField values column_mapping.ref_cl_d_right
  let d_left ← floatField values column_mapping.ref_cl_d_left
  let rl_vx_mps ← floatField values column_mapping.rl_vx_mps
  let rl_ax_mps2 ← floatField values column_mapping.rl_ax_mps2
  pure { id := waypoint_id, s_m := s_m, d_m := 0, x_m := x_m, y_m := y_m,
         d_right := d_right, d_left := d_left, psi_rad := psi_rad,
         kappa_radpm := kappa_radpm,
         vx_mps := rl_vx_mps * 0.7, ax_mps2 := rl_ax_mps2 * 0.5 }

/-- create_iqp_waypoint: raw racing line position, heading, speed and
acceleration; reference racing line arc length, curvature and bounds. -/
def create_iqp_waypoint (values : List Field) (waypoint_id : Nat)
    (speed_factor : ℚ) : Option Waypoint := do
  let x_m ← floatField values column_mapping.rl_x_m
  let y_m ← floatField values column_mapping.rl_y_m
  let psi_rad ← floatField values column_mapping.rl_psi_rad
  let vx_mps ← floatField values column_mapping.rl_vx_mps
  let ax_mps2 ← floatField values column_mapping.rl_ax_mps2
  let s_m ← floatField values column_mapping.ref_rl_s_m
  let kappa_radpm ← floatField values column_mapping.ref_rl_kappa_radpm
  let d_right ← floatField values column_mapping.ref_rl_d_right
  let d_left ← floatField values column_mapping.ref_rl_d_left
  pure { id := waypoint_id, s_m := s_m, d_m := 0, x_m := x_m, y_m := y_m,
         d_right := d_right, d_left := d_left, psi_rad := psi_rad,
         kappa_radpm := kappa_radpm,
         vx_mps := vx_mps * speed_factor, ax_mps2 := ax_mps2 }

/-- create_sp_waypoint: reference racing line geometry, raw speed and
acceleration scaled by 0.85 and 0.8. -/
def create_sp_waypoint (values : List Field) (waypoint_id : Nat) :
    Option Waypoint := do
  let s_m ← floatField values column_mapping.ref_rl_s_m
  let x_m ← floatField values column_mapping.ref_rl_x_m
  let y_m ← floatField values column_mapping.ref_rl_y_m
  let psi_rad ← floatField values column_mapping.ref_rl_psi_rad
  let kappa_radpm ← floatField values column_mapping.ref_rl_kappa_radpm
  let d_right ← floatField values column_mapping.ref_rl_d_right
  let d_left ← floatField values column_mapping.ref_rl_d_left
  let rl_vx_mps ← floatField values column_mapping.rl_vx_mps
  let rl_ax_mps2 ← floatField values column_mapping.rl_ax_mps2
  pure { id := waypoint_id, s_m := s_m, d_m := 0, x_m := x_m, y_m := y_m,
         d_right := d_right, d_left := d_left, psi_rad := psi_rad,
         kappa_radpm := kappa_radpm,
         vx_mps := rl_vx_mps * 0.85, ax_mps2 := rl_ax_mps2 * 0.8 }

/-- The triple of waypoint lists returned by load_marina_csv. -/
structure TrajectoryData where
  centerline : List Waypoint
  iqp : List Waypoint
  sp : List Waypoint
deriving DecidableEq

/-- The body of the per-row loop of load_marina_csv.  The Python loop
appends each waypoint as soon as it is built, so an exception raised while
building a later waypoint of the row leaves the earlier appends in place
(the except clause just continues with the next row).  Appending to one
list never changes the other lists, so the id passed to each constructor
equals that list length at the moment of the call, and each failure case
below returns exactly the lists appended so far.  The loop calls
create_iqp_waypoint with the default speed_factor of 1.0. -/
def processRow (acc : TrajectoryData) (line : List Field) : TrajectoryData :=
  match create_centerline_waypoint line acc.centerline.length with
  | none => acc
  | some cl_wp =>
    match create_iqp_waypoint line acc.iqp.length 1 with
    | none => ⟨acc.centerline ++ [cl_wp], acc.iqp, acc.sp⟩
    | some iqp_wp =>
      match create_sp_waypoint line acc.sp.length with
      | none => ⟨acc.centerline ++ [cl_wp], acc.iqp ++ [iqp_wp], acc.sp⟩
      | some sp_wp =>
        ⟨acc.centerline ++ [cl_wp], acc.iqp ++ [iqp_wp], acc.sp ++ [sp_wp]⟩

/-- load_marina_csv, starting from the already filtered and tokenized data
rows: the per-row conversion loop. -/
def load_marina_csv (rows : List (List Field)) : TrajectoryData :=
  rows.foldl processRow ⟨[], [], []⟩

/-- Does the stripped line start with the given character? -/
def startsWithChar (c : Char) : List Char → Bool
  | [] => false
  | a :: _ => a == c

/-- Does the stripped line start with the three characters of nan?  Models
the Python test line.startswith applied to that literal. -/
def startsWithNan : List Char → Bool
  | 'n' :: 'a' :: 'n' :: _ => true
  | _ => false

/-- The line filter of load_marina_csv, applied to an already stripped line:
the first continue fires on empty or comment lines, the second on lines
that start with the nan literal or contain no digit. -/
def keepLine (line : List Char) : Bool :=
  if line.isEmpty || startsWithChar '#' line then false
  else if startsWithNan line || !(line.any Char.isDigit) then false
  else true

/-- The surviving data lines, in order. -/
def data_lines (lines : List (List Char)) : List (List Char) :=
  lines.filter keepLine

/-- One overtaking sector entry.  Python integers are signed, and the end
index is total - 1, so the fields are modelled as integers. -/
structure OtSectorEntry where
  start : Int
  end' : Int
  ot_flag : Bool
deriving DecidableEq

/-- The overtaking sectors document of create_ot_sectors_yaml. -/
structure OtSectors where
  n_sectors : Nat
  yeet_factor : ℚ
  spline_len : Nat
  ot_sector_begin : ℚ
  Overtaking_sector0 : OtSectorEntry
  Overtaking_sector1 : OtSectorEntry
deriving DecidableEq

/-- create_ot_sectors_yaml: two sectors covering the whole track. -/
def create_ot_sectors_yaml (waypoints : List Waypoint) : OtSectors :=
  let total_waypoints := waypoints.length
  { n_sectors := 2
    yeet_factor := 1.25
    spline_len := 30
    ot_sector_begin := 0.5
    Overtaking_sector0 :=
      { start := 0, end' := (total_waypoints / 2 : Nat), ot_flag := false }
    Overtaking_sector1 :=
      { start := (total_waypoints / 2 : Nat) + 1,
        end' := (total_waypoints : Int) - 1, ot_flag := false } }

/-- A ROS message stamp. -/
structure Stamp where
  secs : Nat
  nsecs : Nat
deriving DecidableEq

/-- A ROS message header. -/
structure Header where
  seq : Nat
  stamp : Stamp
  frame_id : String
deriving DecidableEq

/-- One serialized waypoint message, the dict built per waypoint inside
create_waypoint_array. -/
structure WpntMsg where
  id : Nat
  s_m : ℚ
  d_m : ℚ
  x_m : ℚ
  y_m : ℚ
  d_right : ℚ
  d_left : ℚ
  psi_rad : ℚ
  kappa_radpm : ℚ
  vx_mps : ℚ
  ax_mps2 : ℚ
deriving DecidableEq

/-- The waypoint array block of the output document. -/
structure WaypointArray where
  header : Header
  wpnts : List WpntMsg
deriving DecidableEq

/-- create_waypoint_array: copies every waypoint field into a message dict
and wraps the list with a constant header. -/
def create_waypoint_array (waypoints : List Waypoint) : WaypointArray :=
  { header := { seq := 1, stamp := { secs := 0, nsecs := 0 }, frame_id := "" }
    wpnts := waypoints.map fun wp =>
      { id := wp.id, s_m := wp.s_m, d_m := wp.d_m, x_m := wp.x_m,
        y_m := wp.y_m, d_right := wp.d_right, d_left := wp.d_left,
        psi_rad := wp.psi_rad, kappa_radpm := wp.kappa_radpm,
        vx_mps := wp.vx_mps, ax_mps2 := wp.ax_mps2 } }

/-- What load_waypoints_data of plot_raceline.py reads back from a waypoint
array block of the document: the wpnts list. -/
def load_wpnts (arr : WaypointArray) : List WpntMsg :=
  arr.wpnts

/-- A marker pose position. -/
structure Position where
  x : ℚ
  y : ℚ
  z : ℚ
deriving DecidableEq

/-- A visualization marker; the fields the claims are about (the remaining
fields of the Python marker dict are the same constant record for every
track bounds marker: scale 0.1, orange color, zero lifetime, cube action). -/
structure Marker where
  ns : String
  id : Nat
  marker_type : Nat
  pose : Position
deriving DecidableEq

/-- Python extended slice l[::r] for a positive step r, structurally: the
counter counts down from k; an element is taken when it reaches 0 and the
counter resets to r - 1. -/
def sliceStepAux (r : Nat) : Nat → List Waypoint → List Waypoint
  | _, [] => []
  | 0, a :: rest => a :: sliceStepAux r (r - 1) rest
  | k + 1, _ :: rest => sliceStepAux r k rest

/-- Python extended slice waypoints[::r] for positive step r. -/
def sliceStep (r : Nat) (l : List Waypoint) : List Waypoint :=
  sliceStepAux r 0 l

/-- The marker built for the left boundary side from the enumerated
waypoint (i, wp): the boundary position is
(x + d_left (-1) sin psi, y + d_left cos psi) and the marker id is the
enumeration index.  sinF and cosF stand for math.sin and math.cos. -/
def leftBoundaryMarker (sinF cosF : ℚ → ℚ) (p : Nat × Waypoint) : Marker :=
  { ns := "trackbounds_left", id := p.1, marker_type := 1,
    pose :=
      { x := p.2.x_m + p.2.d_left * (-1) * sinF p.2.psi_rad,
        y := p.2.y_m + p.2.d_left * cosF p.2.psi_rad, z := 0 } }

/-- The marker built for the right boundary side from the enumerated
waypoint (i, wp): the boundary position is
(x + d_right sin psi, y + d_right (-1) cos psi) and the marker id is the
enumeration index offset by 1000. -/
def rightBoundaryMarker (sinF cosF : ℚ → ℚ) (p : Nat × Waypoint) : Marker :=
  { ns := "trackbounds_right", id := p.1 + 1000, marker_type := 1,
    pose :=
      { x := p.2.x_m + p.2.d_right * sinF p.2.psi_rad,
        y := p.2.y_m + p.2.d_right * (-1) * cosF p.2.psi_rad, z := 0 } }

/-- create_trackbounds_markers: for the sampled waypoints, first the left
boundary markers (ids 0, 1, ...), then the right boundary markers (ids
offset by 1000). -/
def create_trackbounds_markers (sinF cosF : ℚ → ℚ)
    (waypoints : List Waypoint) : List Marker :=
  let sample_rate := max 1 (waypoints.length / 200)
  let sampled := sliceStep sample_rate waypoints
  sampled.enum.map (leftBoundaryMarker sinF cosF) ++
    sampled.enum.map (rightBoundaryMarker sinF cosF)

/-- The parse driver: when the loaded centerline list is empty it reports
failure before any output document is produced; otherwise it writes the
full file set.  The return value models (success flag, files written). -/
def parse (rows : List (List Field)) (output_map_name : String) :
    Bool × List String :=
  let trajectory_data := load_marina_csv rows
  if trajectory_data.centerline.isEmpty then (false, [])
  else
    (true,
      ["global_waypoints.json", output_map_name ++ ".yaml",
       "ot_sectors.yaml", "speed_scaling.yaml", output_map_name ++ ".png"])

/-- The exit code of main: 0 when parse succeeds, 1 otherwise. -/
def main_exit (rows : List (List Field)) (output_map_name : String) : Nat :=
  if (parse rows output_map_name).1 then 0 else 1

/-- The raw racing line column group of the schema (columns 0 to 10). -/
def rawRacinglineCols : List Nat := [0, 1, 3, 4, 5, 6]

/-- The reference racing line column group of the schema (columns 11 to 25). -/
def refRacinglineCols : List Nat := [11, 12, 13, 15, 18, 21, 22]

/-- The reference centerline column group of the schema (columns 26 to 40). -/
def refCenterlineCols : List Nat := [26, 27, 28, 30, 33, 36, 37]

/-- The track boundary column group of the schema (columns 41 to 46). -/
def trackBoundaryCols : List Nat := [41, 42, 44, 45]

/-- The columns a centerline waypoint draws its geometric fields from:
s_m, x_m, y_m, psi_rad, kappa_radpm, d_right, d_left in that order. -/
def centerlineGeomCols : List Nat :=
  [column_mapping.ref_cl_s_m, column_mapping.ref_cl_x_m,
   column_mapping.ref_cl_y_m, column_mapping.ref_cl_psi_rad,
   column_mapping.ref_cl_kappa_radpm, column_mapping.ref_cl_d_right,
   column_mapping.ref_cl_d_left]

/-- The columns an SP waypoint draws its geometric fields from. -/
def spGeomCols : List Nat :=
  [column_mapping.ref_rl_s_m, column_mapping.ref_rl_x_m,
   column_mapping.ref_rl_y_m, column_mapping.ref_rl_psi_rad,
   column_mapping.ref_rl_kappa_radpm, column_mapping.ref_rl_d_right,
   column_mapping.ref_rl_d_left]

/-- The columns an IQP waypoint draws its geometric fields from. -/
def iqpGeomCols : List Nat :=
  [column_mapping.ref_rl_s_m, column_mapping.rl_x_m, column_mapping.rl_y_m,
   column_mapping.rl_psi_rad, column_mapping.ref_rl_kappa_radpm,
   column_mapping.ref_rl_d_right, column_mapping.ref_rl_d_left]

/-- A set of source columns is unmixed when it lies inside a single
reference parameterization group of the schema. -/
def unmixed (cols : List Nat) : Prop :=
  cols ⊆ rawRacinglineCols ∨ cols ⊆ refRacinglineCols ∨
    cols ⊆ refCenterlineCols ∨ cols ⊆ trackBoundaryCols

instance : DecidablePred unmixed := fun cols => by
  unfold unmixed
  infer_instance

/-- A test row whose column j holds the value j, so the source column of
every produced field can be read off the value. -/
def rowDistinct : List Field :=
  [some 0, some 1, some 2, some 3, some 4, some 5, some 6, some 7, some 8,
   some 9, some 10, some 11, some 12, some 13, some 14, some 15, some 16,
   some 17, some 18, some 19, some 20, some 21, some 22, some 23, some 24,
   some 25, some 26, some 27, some 28, some 29, some 30, some 31, some 32,
   some 33, some 34, some 35, some 36, some 37, some 38, some 39, some 40,
   some 41, some 42, some 43, some 44, some 45]

/-- An all-zero waypoint used as a concrete test value. -/
def wp0 : Waypoint := ⟨0, 0, 0, 0, 0, 0, 0, 0, 0, 0, 0⟩

/-- The loop invariant of load_marina_csv: each list carries ids 0, 1, ...
in order, and the list lengths are ordered centerline, then iqp, then sp. -/
def LoadInv (td : TrajectoryData) : Prop :=
  td.centerline.map Waypoint.id = List.range td.centerline.length ∧
  td.iqp.map Waypoint.id = List.range td.iqp.length ∧
  td.sp.map Waypoint.id = List.range td.sp.length ∧
  td.sp.length ≤ td.iqp.length ∧
  td.iqp.length ≤ td.centerline.length

/-! ### Extraction lemmas for the three waypoint constructors -/

theorem create_centerline_spec {values : List Field} {i : Nat} {wp : Waypoint}
    (h : create_centerline_waypoint values i = some wp) :
    wp.id = i ∧ wp.d_m = 0 ∧
    floatField values column_mapping.ref_cl_x_m = some wp.x_m ∧
    floatField values column_mapping.ref_cl_y_m = some wp.y_m ∧
    floatField values column_mapping.ref_cl_s_m = some wp.s_m ∧
    floatField values column_mapping.ref_cl_psi_rad = some wp.psi_rad ∧
    floatField values column_mapping.ref_cl_kappa_radpm = some wp.kappa_radpm ∧
    floatField values column_mapping.ref_cl_d_right = some wp.d_right ∧
    floatField values column_mapping.ref_cl_d_left = some wp.d_left ∧
    (∃ v, floatField values column_mapping.rl_vx_mps = some v ∧
      wp.vx_mps = v * 0.7) ∧
    (∃ a, floatField values column_mapping.rl_ax_mps2 = some a ∧
      wp.ax_mps2 = a * 0.5) := by
  simp only [create_centerline_waypoint, bind, Option.bind_eq_some,
    Option.pure_def, Option.some.injEq] at h
  obtain ⟨x, hx, y, hy, s, hs, psi, hpsi, k, hk, dr, hdr, dl, hdl, v, hv, a,
    ha, hwp⟩ := h
  subst hwp
  exact ⟨rfl, rfl, hx, hy, hs, hpsi, hk, hdr, hdl, ⟨v, hv, rfl⟩, ⟨a, ha, rfl⟩⟩

theorem create_iqp_spec {values : List Field} {i : Nat} {f : ℚ} {wp : Waypoint}
    (h : create_iqp_waypoint values i f = some wp) :
    wp.id = i ∧ wp.d_m = 0 ∧
    floatField values column_mapping.rl_x_m = some wp.x_m ∧
    floatField values column_mapping.rl_y_m = some wp.y_m ∧
    floatField values column_mapping.rl_psi_rad = some wp.psi_rad ∧
    floatField values column_mapping.ref_rl_s_m = some wp.s_m ∧
    floatField values column_mapping.ref_rl_kappa_radpm = some wp.kappa_radpm ∧
    floatField values column_mapping.ref_rl_d_right = some wp.d_right ∧
    floatField values column_mapping.ref_rl_d_left = some wp.d_left ∧
    (∃ v, floatField values column_mapping.rl_vx_mps = some v ∧
      wp.vx_mps = v * f) ∧
    floatField values column_mapping.rl_ax_mps2 = some wp.ax_mps2 := by
  simp only [create_iqp_waypoint, bind, Option.bind_eq_some,
    Option.pure_def, Option.some.injEq] at h
  obtain ⟨x, hx, y, hy, psi, hpsi, v, hv, a, ha, s, hs, k, hk, dr, hdr, dl,
    hdl, hwp⟩ := h
  subst hwp
  exact ⟨rfl, rfl, hx, hy, hpsi, hs, hk, hdr, hdl, ⟨v, hv, rfl⟩, ha⟩

theorem create_sp_spec {values : List Field} {i : Nat} {wp : Waypoint}
    (h : create_sp_waypoint values i = some wp) :
    wp.id = i ∧ wp.d_m = 0 ∧
    floatField values column_mapping.ref_rl_s_m = some wp.s_m ∧
    floatField values column_mapping.ref_rl_x_m = some wp.x_m ∧
    floatField values column_mapping.ref_rl_y_m = some wp.y_m ∧
    floatField values column_mapping.ref_rl_psi_rad = some wp.psi_rad ∧
    floatField values column_mapping.ref_rl_kappa_radpm = some wp.kappa_radpm ∧
    floatField values column_mapping.ref_rl_d_right = some wp.d_right ∧
    floatField values column_mapping.ref_rl_d_left = some wp.d_left ∧
    (∃ v, floatField values column_mapping.rl_vx_mps = some v ∧
      wp.vx_mps = v * 0.85) ∧
    (∃ a, floatField values column_mapping.rl_ax_mps2 = some a ∧
      wp.ax_mps2 = a * 0.8) := by
  simp only [create_sp_waypoint, bind, Option.bind_eq_some,
    Option.pure_def, Option.some.injEq] at h
  obtain ⟨s, hs, x, hx, y, hy, psi, hpsi, k, hk, dr, hdr, dl, hdl, v, hv, a,
    ha, hwp⟩ := h
  subst hwp
  exact ⟨rfl, rfl, hs, hx, hy, hpsi, hk, hdr, hdl, ⟨v, hv, rfl⟩, ⟨a, ha, rfl⟩⟩

/-- C1: for every valid input row, the produced waypoint speed and
acceleration targets are fixed scalings of the raw racing line speed and
acceleration columns: the centerline waypoint has vx_mps equal to raw speed
times 0.70 and ax_mps2 equal to raw acceleration times 0.50; the moderate
(SP) waypoint scales by 0.85 and 0.80; the aggressive (IQP) waypoint, built
with the default speed factor 1.0, carries both columns unscaled. -/
theorem speed_accel_scaling_C1 (values : List Field) (i : Nat) (v a : ℚ)
    (hv : floatField values column_mapping.rl_vx_mps = some v)
    (ha : floatField values column_mapping.rl_ax_mps2 = some a) :
    (∀ wp, create_centerline_waypoint values i = some wp →
      wp.vx_mps = v * 0.7 ∧ wp.ax_mps2 = a * 0.5) ∧
    (∀ wp, create_sp_waypoint values i = some wp →
      wp.vx_mps = v * 0.85 ∧ wp.ax_mps2 = a * 0.8) ∧
    (∀ wp, create_iqp_waypoint values i 1 = some wp →
      wp.vx_mps = v ∧ wp.ax_mps2 = a) := by
  refine ⟨fun wp h => ?_, fun wp h => ?_, fun wp h => ?_⟩
  · obtain ⟨-, -, -, -, -, -, -, -, -, ⟨v', hv', hwv⟩, ⟨a', ha', hwa⟩⟩ :=
      create_centerline_spec h
    rw [hv] at hv'
    rw [ha] at ha'
    cases hv'
    cases ha'
    exact ⟨hwv, hwa⟩
  · obtain ⟨-, -, -, -, -, -, -, -, -, ⟨v', hv', hwv⟩, ⟨a', ha', hwa⟩⟩ :=
      create_sp_spec h
    rw [hv] at hv'
    rw [ha] at ha'
    cases hv'
    cases ha'
    exact ⟨hwv, hwa⟩
  · obtain ⟨-, -, -, -, -, -, -, -, -, ⟨v', hv', hwv⟩, ha'⟩ :=
      create_iqp_spec h
    rw [hv] at hv'
    rw [ha] at ha'
    cases hv'
    cases ha'
    exact ⟨by rw [hwv, mul_one], rfl⟩

/-! ### Invariants of the per-row conversion loop -/

theorem dense_append {l : List Waypoint} {w : Waypoint}
    (hl : l.map Waypoint.id = List.range l.length) (hw : w.id = l.length) :
    (l ++ [w]).map Waypoint.id = List.range (l ++ [w]).length := by
  rw [List.map_append, hl, List.length_append]
  simp [List.range_succ, hw]

theorem processRow_inv (line : List Field) {acc : TrajectoryData}
    (h : LoadInv acc) : LoadInv (processRow acc line) := by
  obtain ⟨h1, h2, h3, h4, h5⟩ := h
  unfold processRow
  cases hc : create_centerline_waypoint line acc.centerline.length with
  | none => exact ⟨h1, h2, h3, h4, h5⟩
  | some cl_wp =>
    have hc1 := dense_append h1 (create_centerline_spec hc).1
    cases hq : create_iqp_waypoint line acc.iqp.length 1 with
    | none =>
      refine ⟨hc1, h2, h3, h4, ?_⟩
      simp only [List.length_append, List.length_singleton]
      omega
    | some iqp_wp =>
      have hq1 := dense_append h2 (create_iqp_spec hq).1
      cases hs : create_sp_waypoint line acc.sp.length with
      | none =>
        refine ⟨hc1, hq1, h3, ?_, ?_⟩ <;>
          simp only [List.length_append, List.length_singleton] <;> omega
      | some sp_wp =>
        refine ⟨hc1, hq1, dense_append h3 (create_sp_spec hs).1, ?_, ?_⟩ <;>
          simp only [List.length_append, List.length_singleton] <;> omega

theorem foldl_processRow_inv :
    ∀ (rows : List (List Field)) (acc : TrajectoryData),
      LoadInv acc → LoadInv (rows.foldl processRow acc)
  | [], _, h => h
  | r :: rest, _acc, h => foldl_processRow_inv rest _ (processRow_inv r h)

theorem load_marina_csv_inv (rows : List (List Field)) :
    LoadInv (load_marina_csv rows) :=
  foldl_processRow_inv rows ⟨[], [], []⟩ ⟨rfl, rfl, rfl, le_refl 0, le_refl 0⟩

/-- C2 counterexample: a row whose column 0 (the raw racing line x) is not
numeric while every column the centerline constructor reads is numeric
yields a centerline list of length 1 but an empty iqp list, so the three
lists do not have equal length and the row is not excluded from all three
outputs. -/
theorem unequal_lengths_C2_cex :
    ¬ ((load_marina_csv
          [(List.replicate 46 (some (0 : ℚ))).set 0 none]).centerline.length =
        (load_marina_csv
          [(List.replicate 46 (some (0 : ℚ))).set 0 none]).iqp.length) := by
  decide

/-- C2 (amended): within each of the three produced waypoint lists the id
fields are exactly 0..len-1 with no gaps, regardless of how many rows were
skipped; a row whose centerline constructor (the first one attempted) fails
numeric conversion is excluded from all three outputs and does not shift
the id numbering.  The three lists however need not have equal length: a
row failing in a later constructor is kept in the lists already appended
to, so only len(centerline) >= len(iqp) >= len(sp) holds in general. -/
theorem waypoint_ids_dense_C2 (rows : List (List Field)) :
    ((load_marina_csv rows).centerline.map Waypoint.id =
      List.range (load_marina_csv rows).centerline.length) ∧
    ((load_marina_csv rows).iqp.map Waypoint.id =
      List.range (load_marina_csv rows).iqp.length) ∧
    ((load_marina_csv rows).sp.map Waypoint.id =
      List.range (load_marina_csv rows).sp.length) ∧
    (∀ (acc : TrajectoryData) (line : List Field),
      create_centerline_waypoint line acc.centerline.length = none →
      processRow acc line = acc) := by
  obtain ⟨h1, h2, h3, -, -⟩ := load_marina_csv_inv rows
  refine ⟨h1, h2, h3, fun acc line hnone => ?_⟩
  unfold processRow
  rw [hnone]

/-- Witness for C2 at an all-none row: the centerline constructor fails, so
the row leaves the accumulated lists untouched. -/
theorem waypoint_ids_dense_C2_witness :
    (create_centerline_waypoint (List.replicate 46 (none : Field))
        (TrajectoryData.centerline ⟨[], [], []⟩).length = none) ∧
    processRow ⟨[], [], []⟩ (List.replicate 46 (none : Field)) = ⟨[], [], []⟩ :=
  ⟨by decide,
    (waypoint_ids_dense_C2 []).2.2.2 ⟨[], [], []⟩
      (List.replicate 46 (none : Field)) (by decide)⟩

/-- C10: for every input, the three produced waypoint list lengths satisfy
len(centerline) >= len(iqp) >= len(sp), because the three waypoints of a
row are built and appended in that fixed order and a conversion failure
partway through a row keeps the appends already made while skipping the
rest. -/
theorem list_length_monotone_C10 (rows : List (List Field)) :
    (load_marina_csv rows).sp.length ≤ (load_marina_csv rows).iqp.length ∧
    (load_marina_csv rows).iqp.length ≤
      (load_marina_csv rows).centerline.length := by
  obtain ⟨-, -, -, h4, h5⟩ := load_marina_csv_inv rows
  exact ⟨h4, h5⟩

/-! ### Reference frame provenance -/

/-- C3 counterexample: on the row whose column j holds the value j, the
aggressive (IQP) waypoint takes x_m from column 0 of the raw racing line
group but s_m from column 11 of the reference racing line group, so the
reference frames are mixed within one waypoint and the used column set
lies in no single parameterization group. -/
theorem frames_mixed_C3_cex :
    ¬ unmixed iqpGeomCols ∧
    create_iqp_waypoint rowDistinct 0 1 =
      some ⟨0, 11, 0, 0, 1, 21, 22, 5, 18, 3, 6⟩ ∧
    (0 ∈ rawRacinglineCols ∧ 0 ∉ refRacinglineCols ∧
      11 ∈ refRacinglineCols ∧ 11 ∉ rawRacinglineCols) := by
  refine ⟨by decide, ?_, by decide⟩
  have h0 : floatField rowDistinct 0 = some 0 := by decide
  have h1 : floatField rowDistinct 1 = some 1 := by decide
  have h3 : floatField rowDistinct 3 = some 3 := by decide
  have h5 : floatField rowDistinct 5 = some 5 := by decide
  have h6 : floatField rowDistinct 6 = some 6 := by decide
  have h11 : floatField rowDistinct 11 = some 11 := by decide
  have h18 : floatField rowDistinct 18 = some 18 := by decide
  have h21 : floatField rowDistinct 21 = some 21 := by decide
  have h22 : floatField rowDistinct 22 = some 22 := by decide
  simp [create_iqp_waypoint, column_mapping, h0, h1, h3, h5, h6, h11, h18,
    h21, h22]

/-- C3 (amended): the centerline waypoint takes s_m and every other
geometric field from the reference centerline group alone, and the SP
waypoint takes them all from the reference racing line group alone; the
IQP waypoint however mixes frames deliberately, taking x_m, y_m and
psi_rad from the raw racing line group while s_m, kappa_radpm, d_right
and d_left come from the reference racing line group. -/
theorem frame_provenance_C3 (values : List Field) (i : Nat) :
    (∀ wp, create_centerline_waypoint values i = some wp →
      (floatField values column_mapping.ref_cl_s_m = some wp.s_m ∧
       floatField values column_mapping.ref_cl_x_m = some wp.x_m ∧
       floatField values column_mapping.ref_cl_y_m = some wp.y_m ∧
       floatField values column_mapping.ref_cl_psi_rad = some wp.psi_rad ∧
       floatField values column_mapping.ref_cl_kappa_radpm =
         some wp.kappa_radpm ∧
       floatField values column_mapping.ref_cl_d_right = some wp.d_right ∧
       floatField values column_mapping.ref_cl_d_left = some wp.d_left) ∧
      unmixed centerlineGeomCols) ∧
    (∀ wp, create_sp_waypoint values i = some wp →
      (floatField values column_mapping.ref_rl_s_m = some wp.s_m ∧
       floatField values column_mapping.ref_rl_x_m = some wp.x_m ∧
       floatField values column_mapping.ref_rl_y_m = some wp.y_m ∧
       floatField values column_mapping.ref_rl_psi_rad = some wp.psi_rad ∧
       floatField values column_mapping.ref_rl_kappa_radpm =
         some wp.kappa_radpm ∧
       floatField values column_mapping.ref_rl_d_right = some wp.d_right ∧
       floatField values column_mapping.ref_rl_d_left = some wp.d_left) ∧
      unmixed spGeomCols) ∧
    (∀ wp, create_iqp_waypoint values i 1 = some wp →
      (floatField values column_mapping.rl_x_m = some wp.x_m ∧
       floatField values column_mapping.rl_y_m = some wp.y_m ∧
       floatField values column_mapping.rl_psi_rad = some wp.psi_rad ∧
       floatField values column_mapping.ref_rl_s_m = some wp.s_m ∧
       floatField values column_mapping.ref_rl_kappa_radpm =
         some wp.kappa_radpm ∧
       floatField values column_mapping.ref_rl_d_right = some wp.d_right ∧
       floatField values column_mapping.ref_rl_d_left = some wp.d_left) ∧
      ¬ unmixed iqpGeomCols ∧
      [column_mapping.rl_x_m, column_mapping.rl_y_m,
        column_mapping.rl_psi_rad] ⊆ rawRacinglineCols ∧
      [column_mapping.ref_rl_s_m, column_mapping.ref_rl_kappa_radpm,
        column_mapping.ref_rl_d_right, column_mapping.ref_rl_d_left] ⊆
        refRacinglineCols) := by
  refine ⟨fun wp h => ?_, fun wp h => ?_, fun wp h => ?_⟩
  · obtain ⟨-, -, hx, hy, hs, hpsi, hk, hdr, hdl, -, -⟩ :=
      create_centerline_spec h
    exact ⟨⟨hs, hx, hy, hpsi, hk, hdr, hdl⟩, by decide⟩
  · obtain ⟨-, -, hs, hx, hy, hpsi, hk, hdr, hdl, -, -⟩ := create_sp_spec h
    exact ⟨⟨hs, hx, hy, hpsi, hk, hdr, hdl⟩, by decide⟩
  · obtain ⟨-, -, hx, hy, hpsi, hs, hk, hdr, hdl, -, -⟩ := create_iqp_spec h
    exact ⟨⟨hx, hy, hpsi, hs, hk, hdr, hdl⟩, by decide, by decide, by decide⟩

/-- Witness for C3 on the row whose column j holds the value j. -/
theorem frame_provenance_C3_witness :
    (create_iqp_waypoint rowDistinct 0 1 =
      some ⟨0, 11, 0, 0, 1, 21, 22, 5, 18, 3, 6⟩) ∧
    ((floatField rowDistinct column_mapping.rl_x_m =
        some (Waypoint.x_m ⟨0, 11, 0, 0, 1, 21, 22, 5, 18, 3, 6⟩) ∧
      floatField rowDistinct column_mapping.rl_y_m =
        some (Waypoint.y_m ⟨0, 11, 0, 0, 1, 21, 22, 5, 18, 3, 6⟩) ∧
      floatField rowDistinct column_mapping.rl_psi_rad =
        some (Waypoint.psi_rad ⟨0, 11, 0, 0, 1, 21, 22, 5, 18, 3, 6⟩) ∧
      floatField rowDistinct column_mapping.ref_rl_s_m =
        some (Waypoint.s_m ⟨0, 11, 0, 0, 1, 21, 22, 5, 18, 3, 6⟩) ∧
      floatField rowDistinct column_mapping.ref_rl_kappa_radpm =
        some (Waypoint.kappa_radpm ⟨0, 11, 0, 0, 1, 21, 22, 5, 18, 3, 6⟩) ∧
      floatField rowDistinct column_mapping.ref_rl_d_right =
        some (Waypoint.d_right ⟨0, 11, 0, 0, 1, 21, 22, 5, 18, 3, 6⟩) ∧
      floatField rowDistinct column_mapping.ref_rl_d_left =
        some (Waypoint.d_left ⟨0, 11, 0, 0, 1, 21, 22, 5, 18, 3, 6⟩)) ∧
      ¬ unmixed iqpGeomCols ∧
      [column_mapping.rl_x_m, column_mapping.rl_y_m,
        column_mapping.rl_psi_rad] ⊆ rawRacinglineCols ∧
      [column_mapping.ref_rl_s_m, column_mapping.ref_rl_kappa_radpm,
        column_mapping.ref_rl_d_right, column_mapping.ref_rl_d_left] ⊆
        refRacinglineCols) := by
  have hiqp : create_iqp_waypoint rowDistinct 0 1 =
      some ⟨0, 11, 0, 0, 1, 21, 22, 5, 18, 3, 6⟩ := by
    have h0 : floatField rowDistinct 0 = some 0 := by decide
    have h1 : floatField rowDistinct 1 = some 1 := by decide
    have h3 : floatField rowDistinct 3 = some 3 := by decide
    have h5 : floatField rowDistinct 5 = some 5 := by decide
    have h6 : floatField rowDistinct 6 = some 6 := by decide
    have h11 : floatField rowDistinct 11 = some 11 := by decide
    have h18 : floatField rowDistinct 18 = some 18 := by decide
    have h21 : floatField rowDistinct 21 = some 21 := by decide
    have h22 : floatField rowDistinct 22 = some 22 := by decide
    simp [create_iqp_waypoint, column_mapping, h0, h1, h3, h5, h6, h11, h18,
      h21, h22]
  exact ⟨hiqp, (frame_provenance_C3 rowDistinct 0).2.2
    ⟨0, 11, 0, 0, 1, 21, 22, 5, 18, 3, 6⟩ hiqp⟩

/-! ### The line filter -/

/-- C4 counterexample: the stripped line nan,1 contains the digit 1, is
not empty and does not begin with the comment marker, yet the row parser
skips it, because of the additional guard on lines that start with the
nan literal. -/
theorem nan_line_skip_C4_cex :
    keepLine ['n', 'a', 'n', ',', '1'] = false ∧
    ¬ (['n', 'a', 'n', ',', '1'].isEmpty = true ∨
       startsWithChar '#' ['n', 'a', 'n', ',', '1'] = true ∨
       ['n', 'a', 'n', ',', '1'].any Char.isDigit = false) := by
  refine ⟨by decide, by decide⟩

/-- C4 (amended): a stripped input line is skipped by the row parser
exactly when it is empty, begins with the comment marker, begins with the
nan literal, or contains no digit character; every surviving line is kept,
in order, as a data line of the parse. -/
theorem line_skip_rule_C4 (line : List Char) (lines : List (List Char)) :
    (keepLine line = false ↔
      line.isEmpty = true ∨ startsWithChar '#' line = true ∨
      startsWithNan line = true ∨ line.any Char.isDigit = false) ∧
    (line ∈ data_lines lines ↔ line ∈ lines ∧ keepLine line = true) := by
  constructor
  · unfold keepLine
    rcases line.isEmpty <;> rcases startsWithChar '#' line <;>
      rcases startsWithNan line <;> rcases line.any Char.isDigit <;> simp
  · simp [data_lines, List.mem_filter]

/-! ### The extended slice -/

theorem sliceStepAux_nil (r k : Nat) :
    sliceStepAux r k ([] : List Waypoint) = [] := by
  cases k <;> simp [sliceStepAux]

theorem sliceStepAux_cons_zero (r : Nat) (a : Waypoint) (rest : List Waypoint) :
    sliceStepAux r 0 (a :: rest) = a :: sliceStepAux r (r - 1) rest := by
  simp [sliceStepAux]

theorem sliceStepAux_cons_succ (r j : Nat) (a : Waypoint)
    (rest : List Waypoint) :
    sliceStepAux r (j + 1) (a :: rest) = sliceStepAux r j rest := by
  simp [sliceStepAux]

theorem sliceStepAux_length (r : Nat) (hr : 1 ≤ r) :
    ∀ (l : List Waypoint) (k : Nat), k ≤ r - 1 →
      (sliceStepAux r k l).length = (l.length + (r - 1 - k)) / r := by
  intro l
  induction l with
  | nil =>
    intro k hk
    rw [sliceStepAux_nil]
    simp only [List.length_nil, Nat.zero_add]
    exact (Nat.div_eq_of_lt (by omega)).symm
  | cons a rest ih =>
    intro k hk
    cases k with
    | zero =>
      rw [sliceStepAux_cons_zero, List.length_cons, List.length_cons,
        ih (r - 1) (le_refl _)]
      have h1 : rest.length + (r - 1 - (r - 1)) = rest.length := by omega
      have h2 : rest.length + 1 + (r - 1 - 0) = rest.length + r := by omega
      rw [h1, h2, Nat.add_div_right _ (by omega)]
    | succ j =>
      rw [sliceStepAux_cons_succ, List.length_cons, ih j (by omega)]
      congr 1
      omega

theorem sliceStep_length (r : Nat) (hr : 1 ≤ r) (l : List Waypoint) :
    (sliceStep r l).length = (l.length + (r - 1)) / r := by
  unfold sliceStep
  rw [sliceStepAux_length r hr l 0 (by omega), Nat.sub_zero]

theorem sliceStepAux_get? (r : Nat) (hr : 1 ≤ r) :
    ∀ (l : List Waypoint) (k i : Nat),
      (sliceStepAux r k l).get? i = l.get? (k + i * r) := by
  intro l
  induction l with
  | nil => intro k i; rw [sliceStepAux_nil]; rfl
  | cons a rest ih =>
    intro k i
    cases k with
    | zero =>
      cases i with
      | zero =>
        rw [sliceStepAux_cons_zero]
        have h0 : 0 + 0 * r = 0 := by omega
        rw [h0]
        rfl
      | succ j =>
        rw [sliceStepAux_cons_zero, List.get?_cons_succ, ih (r - 1) j]
        have hm : 0 + (j + 1) * r = ((r - 1) + j * r) + 1 := by
          have : j * r + r = (j + 1) * r := by ring
          omega
        rw [hm, List.get?_cons_succ]
    | succ j =>
      rw [sliceStepAux_cons_succ, ih j i]
      have hm : (j + 1) + i * r = (j + i * r) + 1 := by omega
      rw [hm, List.get?_cons_succ]

theorem sliceStep_get? (r : Nat) (hr : 1 ≤ r) (l : List Waypoint) (i : Nat) :
    (sliceStep r l).get? i = l.get? (i * r) := by
  unfold sliceStep
  rw [sliceStepAux_get? r hr l 0 i, Nat.zero_add]

/-- The number of sampled markers per side stays below 1000 for every
waypoint count N, under the stride max(1, N / 200). -/
theorem sampled_count_bound (N : Nat) :
    (N + (max 1 (N / 200) - 1)) / max 1 (N / 200) < 1000 := by
  have hq1 : 1 ≤ max 1 (N / 200) := le_max_left _ _
  have hN : N ≤ 999 * max 1 (N / 200) := by
    rcases le_or_lt N 999 with hle | hgt
    · have : 999 * 1 ≤ 999 * max 1 (N / 200) :=
        Nat.mul_le_mul_left 999 hq1
      omega
    · have h200 : 200 ≤ N := by omega
      have hqq : max 1 (N / 200) = N / 200 :=
        max_eq_right (by
          have : 200 / 200 ≤ N / 200 := Nat.div_le_div_right h200
          simpa using this)
      have hdm := Nat.div_add_mod N 200
      have hm : N % 200 < 200 := Nat.mod_lt _ (by omega)
      rw [hqq]
      omega
  have hlt : N + (max 1 (N / 200) - 1) < 1000 * max 1 (N / 200) := by omega
  exact (Nat.div_lt_iff_lt_mul (by omega)).2
    (by rw [Nat.mul_comm] at hlt ⊢; omega)

/-- C5: for every sampled aggressive trajectory waypoint, the generated
left track boundary marker sits at (x - d_left sin psi, y + d_left cos
psi) and the right marker at (x + d_right sin psi, y - d_right cos psi);
for a waypoint with psi_rad = 0 and d_left = d_right = 2 these reduce to
(x, y + 2) and (x, y - 2). -/
theorem trackbounds_positions_C5 (sinF cosF : ℚ → ℚ) (wps : List Waypoint)
    (i : Nat) (wp : Waypoint)
    (h : (sliceStep (max 1 (wps.length / 200)) wps).get? i = some wp) :
    ((create_trackbounds_markers sinF cosF wps).get? i =
      some { ns := "trackbounds_left", id := i, marker_type := 1,
             pose := { x := wp.x_m - wp.d_left * sinF wp.psi_rad,
                       y := wp.y_m + wp.d_left * cosF wp.psi_rad,
                       z := 0 } }) ∧
    ((create_trackbounds_markers sinF cosF wps).get?
        ((sliceStep (max 1 (wps.length / 200)) wps).length + i) =
      some { ns := "trackbounds_right", id := i + 1000, marker_type := 1,
             pose := { x := wp.x_m + wp.d_right * sinF wp.psi_rad,
                       y := wp.y_m - wp.d_right * cosF wp.psi_rad,
                       z := 0 } }) ∧
    (wp.psi_rad = 0 → sinF 0 = 0 → cosF 0 = 1 → wp.d_left = 2 →
      wp.d_right = 2 →
      wp.x_m - wp.d_left * sinF wp.psi_rad = wp.x_m ∧
      wp.y_m + wp.d_left * cosF wp.psi_rad = wp.y_m + 2 ∧
      wp.x_m + wp.d_right * sinF wp.psi_rad = wp.x_m ∧
      wp.y_m - wp.d_right * cosF wp.psi_rad = wp.y_m - 2) := by
  have hi : i < (sliceStep (max 1 (wps.length / 200)) wps).length := by
    have := List.get?_eq_some.1 h
    exact this.1
  refine ⟨?_, ?_, ?_⟩
  · simp only [create_trackbounds_markers]
    rw [List.get?_append
      (by rw [List.length_map, List.enum_length]; exact hi)]
    rw [List.get?_map, List.get?_enum, h]
    simp only [Option.map_some', Option.some.injEq, leftBoundaryMarker,
      Marker.mk.injEq, Position.mk.injEq]
    exact ⟨trivial, trivial, trivial, by ring, by ring, trivial⟩
  · simp only [create_trackbounds_markers]
    rw [List.get?_append_right
      (by rw [List.length_map, List.enum_length]; omega)]
    have hlen : ((sliceStep (max 1 (wps.length / 200)) wps).enum.map
        (leftBoundaryMarker sinF cosF)).length =
        (sliceStep (max 1 (wps.length / 200)) wps).length := by
      simp [List.length_map, List.enum_length]
    rw [hlen, Nat.add_sub_cancel_left, List.get?_map, List.get?_enum, h]
    simp only [Option.map_some', Option.some.injEq, rightBoundaryMarker,
      Marker.mk.injEq, Position.mk.injEq]
    exact ⟨trivial, trivial, trivial, by ring, by ring, trivial⟩
  · intro hpsi hsin hcos hdl hdr
    rw [hpsi, hsin, hdl, hdr, hcos]
    refine ⟨by ring, by ring, by ring, by ring⟩

/-- Witness for C5 on a single waypoint at (1, 1) with heading zero and
lateral clearances 2, with the trigonometric functions fixed at the values
they take at heading zero. -/
theorem trackbounds_positions_C5_witness :
    ((sliceStep
        (max 1 (([⟨0, 0, 0, 1, 1, 2, 2, 0, 0, 0, 0⟩] :
          List Waypoint).length / 200))
        [⟨0, 0, 0, 1, 1, 2, 2, 0, 0, 0, 0⟩]).get? 0 =
      some ⟨0, 0, 0, 1, 1, 2, 2, 0, 0, 0, 0⟩) ∧
    ((create_trackbounds_markers (fun _ => 0) (fun _ => 1)
        [⟨0, 0, 0, 1, 1, 2, 2, 0, 0, 0, 0⟩]).get? 0 =
      some { ns := "trackbounds_left", id := 0, marker_type := 1,
             pose :=
              { x := (⟨0, 0, 0, 1, 1, 2, 2, 0, 0, 0, 0⟩ : Waypoint).x_m -
                  (⟨0, 0, 0, 1, 1, 2, 2, 0, 0, 0, 0⟩ : Waypoint).d_left * 0,
                y := (⟨0, 0, 0, 1, 1, 2, 2, 0, 0, 0, 0⟩ : Waypoint).y_m +
                  (⟨0, 0, 0, 1, 1, 2, 2, 0, 0, 0, 0⟩ : Waypoint).d_left * 1,
                z := 0 } }) ∧
    ((⟨0, 0, 0, 1, 1, 2, 2, 0, 0, 0, 0⟩ : Waypoint).x_m -
        (⟨0, 0, 0, 1, 1, 2, 2, 0, 0, 0, 0⟩ : Waypoint).d_left * 0 =
      (⟨0, 0, 0, 1, 1, 2, 2, 0, 0, 0, 0⟩ : Waypoint).x_m ∧
      (⟨0, 0, 0, 1, 1, 2, 2, 0, 0, 0, 0⟩ : Waypoint).y_m +
        (⟨0, 0, 0, 1, 1, 2, 2, 0, 0, 0, 0⟩ : Waypoint).d_left * 1 =
      (⟨0, 0, 0, 1, 1, 2, 2, 0, 0, 0, 0⟩ : Waypoint).y_m + 2 ∧
      (⟨0, 0, 0, 1, 1, 2, 2, 0, 0, 0, 0⟩ : Waypoint).x_m +
        (⟨0, 0, 0, 1, 1, 2, 2, 0, 0, 0, 0⟩ : Waypoint).d_right * 0 =
      (⟨0, 0, 0, 1, 1, 2, 2, 0, 0, 0, 0⟩ : Waypoint).x_m ∧
      (⟨0, 0, 0, 1, 1, 2, 2, 0, 0, 0, 0⟩ : Waypoint).y_m -
        (⟨0, 0, 0, 1, 1, 2, 2, 0, 0, 0, 0⟩ : Waypoint).d_right * 1 =
      (⟨0, 0, 0, 1, 1, 2, 2, 0, 0, 0, 0⟩ : Waypoint).y_m - 2) := by
  have h : (sliceStep
      (max 1 (([⟨0, 0, 0, 1, 1, 2, 2, 0, 0, 0, 0⟩] :
        List Waypoint).length / 200))
      [⟨0, 0, 0, 1, 1, 2, 2, 0, 0, 0, 0⟩]).get? 0 =
      some ⟨0, 0, 0, 1, 1, 2, 2, 0, 0, 0, 0⟩ := by decide
  have hall := trackbounds_positions_C5 (fun _ => 0) (fun _ => 1)
    [⟨0, 0, 0, 1, 1, 2, 2, 0, 0, 0, 0⟩] 0 ⟨0, 0, 0, 1, 1, 2, 2, 0, 0, 0, 0⟩ h
  exact ⟨h, hall.1, hall.2.2 rfl rfl rfl rfl rfl⟩

/-- C8: for every aggressive trajectory waypoint list, the per-side
sampled marker count under the stride max(1, N / 200) stays strictly
below 1000, so no left boundary marker id equals any right boundary
marker id (the right ids are offset by 1000). -/
theorem trackbounds_id_disjoint_C8 (sinF cosF : ℚ → ℚ)
    (wps : List Waypoint) (m1 m2 : Marker)
    (h1 : m1 ∈ create_trackbounds_markers sinF cosF wps)
    (h2 : m2 ∈ create_trackbounds_markers sinF cosF wps)
    (hns1 : m1.ns = "trackbounds_left")
    (hns2 : m2.ns = "trackbounds_right") :
    (sliceStep (max 1 (wps.length / 200)) wps).length < 1000 ∧
      m1.id ≠ m2.id := by
  have hr : 1 ≤ max 1 (wps.length / 200) := le_max_left _ _
  have hk : (sliceStep (max 1 (wps.length / 200)) wps).length < 1000 := by
    rw [sliceStep_length _ hr]
    exact sampled_count_bound wps.length
  refine ⟨hk, ?_⟩
  simp only [create_trackbounds_markers, List.mem_append] at h1 h2
  rcases h1 with h1 | h1
  · rcases h2 with h2 | h2
    · rcases List.mem_map.1 h2 with ⟨q, -, rfl⟩
      simp [leftBoundaryMarker] at hns2
    · rcases List.mem_map.1 h1 with ⟨p, hp, rfl⟩
      rcases List.mem_map.1 h2 with ⟨q, -, rfl⟩
      have hp1 : (sliceStep (max 1 (wps.length / 200)) wps).get? p.1 =
          some p.2 := List.mem_enum_iff_get?.1 hp
      have hplt : p.1 < (sliceStep (max 1 (wps.length / 200)) wps).length :=
        (List.get?_eq_some.1 hp1).1
      show p.1 ≠ q.1 + 1000
      omega
  · rcases List.mem_map.1 h1 with ⟨p, -, rfl⟩
    simp [rightBoundaryMarker] at hns1

/-- Witness for C8 on a single all-zero waypoint with constant
trigonometric stand-ins. -/
theorem trackbounds_id_disjoint_C8_witness :
    ((⟨"trackbounds_left", 0, 1, ⟨0, 0, 0⟩⟩ : Marker) ∈
      create_trackbounds_markers (fun _ => 0) (fun _ => 1) [wp0]) ∧
    ((⟨"trackbounds_right", 1000, 1, ⟨0, 0, 0⟩⟩ : Marker) ∈
      create_trackbounds_markers (fun _ => 0) (fun _ => 1) [wp0]) ∧
    ((sliceStep (max 1 (([wp0] : List Waypoint).length / 200))
        [wp0]).length < 1000 ∧
      (⟨"trackbounds_left", 0, 1, ⟨0, 0, 0⟩⟩ : Marker).id ≠
        (⟨"trackbounds_right", 1000, 1, ⟨0, 0, 0⟩⟩ : Marker).id) := by
  have hm1 : (⟨"trackbounds_left", 0, 1, ⟨0, 0, 0⟩⟩ : Marker) ∈
      create_trackbounds_markers (fun _ => 0) (fun _ => 1) [wp0] := by
    simp [create_trackbounds_markers, leftBoundaryMarker,
      rightBoundaryMarker, sliceStep, sliceStepAux, wp0, List.enum,
      List.enumFrom]
  have hm2 : (⟨"trackbounds_right", 1000, 1, ⟨0, 0, 0⟩⟩ : Marker) ∈
      create_trackbounds_markers (fun _ => 0) (fun _ => 1) [wp0] := by
    simp [create_trackbounds_markers, leftBoundaryMarker,
      rightBoundaryMarker, sliceStep, sliceStepAux, wp0, List.enum,
      List.enumFrom]
  exact ⟨hm1, hm2,
    trackbounds_id_disjoint_C8 (fun _ => 0) (fun _ => 1) [wp0] _ _ hm1 hm2
      rfl rfl⟩

/-! ### Overtaking sectors, serialization round trip, empty parse -/

/-- C6 counterexample: for a centerline list of 2 waypoints the two
produced sectors span 2 indices (0..1) and 0 indices (2..1), so the two
contiguous ranges do not have equal size. -/
theorem ot_sectors_unequal_C6_cex :
    ¬ ((create_ot_sectors_yaml (List.replicate 2 wp0)).Overtaking_sector0.end' -
        (create_ot_sectors_yaml
          (List.replicate 2 wp0)).Overtaking_sector0.start + 1 =
       (create_ot_sectors_yaml (List.replicate 2 wp0)).Overtaking_sector1.end' -
        (create_ot_sectors_yaml
          (List.replicate 2 wp0)).Overtaking_sector1.start + 1) := by
  decide

/-- C6 (amended): for every centerline waypoint list of length N at least
1, the overtaking sectors document splits the index range [0, N-1] into
exactly two contiguous, non-overlapping index ranges, the first half
inclusive of the midpoint (start 0, end N / 2) and the second half the
remainder (start N / 2 + 1, end N - 1), whose union covers all waypoint
indices, with both sectors flagged no-overtaking by default; the two
ranges span N / 2 + 1 and N - 1 - N / 2 indices, which are not equal in
general. -/
theorem ot_sectors_partition_C6 (wps : List Waypoint) (_h : 1 ≤ wps.length) :
    (create_ot_sectors_yaml wps).n_sectors = 2 ∧
    (create_ot_sectors_yaml wps).Overtaking_sector0.start = 0 ∧
    (create_ot_sectors_yaml wps).Overtaking_sector0.end' =
      ((wps.length / 2 : Nat) : Int) ∧
    (create_ot_sectors_yaml wps).Overtaking_sector1.start =
      ((wps.length / 2 : Nat) : Int) + 1 ∧
    (create_ot_sectors_yaml wps).Overtaking_sector1.end' =
      (wps.length : Int) - 1 ∧
    (create_ot_sectors_yaml wps).Overtaking_sector0.ot_flag = false ∧
    (create_ot_sectors_yaml wps).Overtaking_sector1.ot_flag = false ∧
    (create_ot_sectors_yaml wps).Overtaking_sector0.end' <
      (create_ot_sectors_yaml wps).Overtaking_sector1.start ∧
    (∀ i : Int, 0 ≤ i → i ≤ (wps.length : Int) - 1 →
      ((create_ot_sectors_yaml wps).Overtaking_sector0.start ≤ i ∧
        i ≤ (create_ot_sectors_yaml wps).Overtaking_sector0.end') ∨
      ((create_ot_sectors_yaml wps).Overtaking_sector1.start ≤ i ∧
        i ≤ (create_ot_sectors_yaml wps).Overtaking_sector1.end')) := by
  have s0 : (create_ot_sectors_yaml wps).Overtaking_sector0.start = 0 := rfl
  have e0 : (create_ot_sectors_yaml wps).Overtaking_sector0.end' =
      ((wps.length / 2 : Nat) : Int) := rfl
  have s1 : (create_ot_sectors_yaml wps).Overtaking_sector1.start =
      ((wps.length / 2 : Nat) : Int) + 1 := rfl
  have e1 : (create_ot_sectors_yaml wps).Overtaking_sector1.end' =
      (wps.length : Int) - 1 := rfl
  refine ⟨rfl, s0, e0, s1, e1, rfl, rfl, ?_, ?_⟩
  · rw [e0, s1]
    omega
  · intro i h0 h1
    rw [s0, e0, s1, e1]
    omega

/-- Witness for C6 on a list of three waypoints. -/
theorem ot_sectors_partition_C6_witness :
    1 ≤ (List.replicate 3 wp0).length ∧
    ((create_ot_sectors_yaml (List.replicate 3 wp0)).n_sectors = 2 ∧
    (create_ot_sectors_yaml (List.replicate 3 wp0)).Overtaking_sector0.start =
      0 ∧
    (create_ot_sectors_yaml (List.replicate 3 wp0)).Overtaking_sector0.end' =
      (((List.replicate 3 wp0).length / 2 : Nat) : Int) ∧
    (create_ot_sectors_yaml (List.replicate 3 wp0)).Overtaking_sector1.start =
      (((List.replicate 3 wp0).length / 2 : Nat) : Int) + 1 ∧
    (create_ot_sectors_yaml (List.replicate 3 wp0)).Overtaking_sector1.end' =
      ((List.replicate 3 wp0).length : Int) - 1 ∧
    (create_ot_sectors_yaml
      (List.replicate 3 wp0)).Overtaking_sector0.ot_flag = false ∧
    (create_ot_sectors_yaml
      (List.replicate 3 wp0)).Overtaking_sector1.ot_flag = false ∧
    (create_ot_sectors_yaml (List.replicate 3 wp0)).Overtaking_sector0.end' <
      (create_ot_sectors_yaml
        (List.replicate 3 wp0)).Overtaking_sector1.start ∧
    (∀ i : Int, 0 ≤ i → i ≤ ((List.replicate 3 wp0).length : Int) - 1 →
      ((create_ot_sectors_yaml
          (List.replicate 3 wp0)).Overtaking_sector0.start ≤ i ∧
        i ≤ (create_ot_sectors_yaml
          (List.replicate 3 wp0)).Overtaking_sector0.end') ∨
      ((create_ot_sectors_yaml
          (List.replicate 3 wp0)).Overtaking_sector1.start ≤ i ∧
        i ≤ (create_ot_sectors_yaml
          (List.replicate 3 wp0)).Overtaking_sector1.end'))) :=
  ⟨by decide, ot_sectors_partition_C6 (List.replicate 3 wp0) (by decide)⟩

/-- C7: serializing a waypoint list into the waypoint array block of the
output document and reading the wpnts list back, as the plotting utility
does, recovers identical x_m, y_m, vx_mps and s_m values for each waypoint
in the same order. -/
theorem waypoint_array_roundtrip_C7 (waypoints : List Waypoint) :
    (load_wpnts (create_waypoint_array waypoints)).map
        (fun m => (m.x_m, m.y_m, m.vx_mps, m.s_m)) =
      waypoints.map (fun wp => (wp.x_m, wp.y_m, wp.vx_mps, wp.s_m)) := by
  simp [load_wpnts, create_waypoint_array, List.map_map, Function.comp]

/-- C9: if zero valid rows are parsed from the input (the loaded
centerline list is empty), the run is fatal: parse reports failure, no
output document is written, and the process exits with a non-zero code. -/
theorem empty_parse_fatal_C9 (rows : List (List Field)) (name : String)
    (h : (load_marina_csv rows).centerline = []) :
    parse rows name = (false, []) ∧ main_exit rows name = 1 ∧
      main_exit rows name ≠ 0 := by
  have hp : parse rows name = (false, []) := by
    simp [parse, h]
  refine ⟨hp, ?_, ?_⟩ <;> simp [main_exit, hp]

/-- Witness for C9 on an empty input file. -/
theorem empty_parse_fatal_C9_witness :
    (load_marina_csv []).centerline = [] ∧
    (parse [] "marina" = (false, []) ∧ main_exit [] "marina" = 1 ∧
      main_exit [] "marina" ≠ 0) :=
  ⟨rfl, empty_parse_fatal_C9 [] "marina" rfl⟩

/-- Witness for C1 on the all-twos row of 46 fields. -/
theorem speed_accel_scaling_C1_witness :
    (floatField (List.replicate 46 (some (2 : ℚ)))
        column_mapping.rl_vx_mps = some 2) ∧
    (floatField (List.replicate 46 (some (2 : ℚ)))
        column_mapping.rl_ax_mps2 = some 2) ∧
    (∀ wp, create_centerline_waypoint (List.replicate 46 (some (2 : ℚ))) 0 =
        some wp → wp.vx_mps = 2 * 0.7 ∧ wp.ax_mps2 = 2 * 0.5) ∧
    (∀ wp, create_sp_waypoint (List.replicate 46 (some (2 : ℚ))) 0 =
        some wp → wp.vx_mps = 2 * 0.85 ∧ wp.ax_mps2 = 2 * 0.8) ∧
    (∀ wp, create_iqp_waypoint (List.replicate 46 (some (2 : ℚ))) 0 1 =
        some wp → wp.vx_mps = 2 ∧ wp.ax_mps2 = 2) :=
  ⟨by decide, by decide,
    (speed_accel_scaling_C1 (List.replicate 46 (some (2 : ℚ))) 0 2 2
      (by decide) (by decide)).1,
    (speed_accel_scaling_C1 (List.replicate 46 (some (2 : ℚ))) 0 2 2
      (by decide) (by decide)).2.1,
    (speed_accel_scaling_C1 (List.replicate 46 (some (2 : ℚ))) 0 2 2
      (by decide) (by decide)).2.2⟩

end MarinaParser
